import Mathlib

/-!
Verification of the model-test repository's test evaluation engine:
outcome matching (TestRunner and OpenAIService variants), the bounded
agent loop, the cart store, the mock shopping tools, and the batch
analyzer.  Go maps from string keys to values are embedded as
association lists whose values are the `%v` stringifications the Go
code compares; fallible Go functions returning `(T, error)` are
embedded as `Except String T`; `float64` amounts are embedded as `Rat`
(exact arithmetic), and wall-clock times are explicit parameters.
-/

namespace ModelTest

/-- Arguments of a tool call: association list from argument key to the
`%v` stringification of the argument value (Go `map[string]interface{}`
keys are unique; the comparisons in the source only ever see the
`fmt.Sprintf("%v", ...)` rendering of a value). -/
abbrev Args := List (String × String)

/-- Embeds `models.ExpectedToolCall` (src/unnamed/part_002). -/
structure ExpectedToolCall where
  name : String
  arguments : Args
  deriving Repr, DecidableEq

/-- Embeds `models.ExpectedToolPath` (src/unnamed/part_002). -/
structure ExpectedToolPath where
  name : String
  description : String
  tools : List ExpectedToolCall
  deriving Repr, DecidableEq

/-- Embeds `models.TestCase` (src/unnamed/part_002); only the fields the
matchers read. -/
structure TestCase where
  name : String
  prompt : String
  expectedToolVariants : List ExpectedToolPath
  deriving Repr, DecidableEq

/-- Embeds `models.ActualToolCall` (src/unnamed/part_002). -/
structure ActualToolCall where
  name : String
  arguments : Args
  deriving Repr, DecidableEq

/-- Lookup of a key in an argument map: embeds `actual.Arguments[key]`
on a Go map, rendered on the association list. -/
def lookupArg (args : Args) (key : String) : Option String :=
  (args.find? (fun p => p.1 == key)).map (fun p => p.2)

/-- Embeds `strings.EqualFold` as used on `%v`-stringified argument
values (ASCII case folding): the two strings are equal after
lowercasing each character (stated over the character lists so that it
evaluates by kernel reduction). -/
def eqFold (a b : String) : Bool :=
  a.data.map Char.toLower == b.data.map Char.toLower

namespace TestRunner

/-- Embeds `(*TestRunner).isToolCallCorrect`
(src/services/product_service.go, case-insensitive via
`strings.EqualFold`). -/
def isToolCallCorrect (expected : ExpectedToolCall) (actual : ActualToolCall) : Bool :=
  if expected.name != actual.name then false
  else expected.arguments.all (fun kv =>
    match lookupArg actual.arguments kv.1 with
    | none => false
    | some actualValue => eqFold kv.2 actualValue)

/-- Embeds `(*TestRunner).isPathSuccessful`
(src/services/product_service.go). -/
def isPathSuccessful (expected : List ExpectedToolCall) (actual : List ActualToolCall) : Bool :=
  if actual.length != expected.length then false
  else (expected.zip actual).all (fun ea => isToolCallCorrect ea.1 ea.2)

/-- Embeds `(*TestRunner).evaluateAgentResponse`
(src/services/product_service.go); the trace is the list of actual tool
calls after `parseArguments`.  Returns (success, matchedPath). -/
def evaluateAgentResponse (tc : TestCase) (actualTools : List ActualToolCall) :
    Bool × String :=
  if tc.expectedToolVariants.length = 0 then
    (actualTools.length = 0, "no_tools_expected")
  else
    match tc.expectedToolVariants.find? (fun v => isPathSuccessful v.tools actualTools) with
    | some variant => (true, variant.name)
    | none => (false, "")

end TestRunner

namespace OpenAISvc

/-- Embeds `(*OpenAIService).isToolCallCorrect`
(src/services/openai_service.go, plain `!=` comparison on the `%v`
stringifications — case-sensitive). -/
def isToolCallCorrect (expected : ExpectedToolCall) (actual : ActualToolCall) : Bool :=
  if expected.name != actual.name then false
  else expected.arguments.all (fun kv =>
    match lookupArg actual.arguments kv.1 with
    | none => false
    | some actualValue => kv.2 == actualValue)

/-- Embeds `(*OpenAIService).isPathSuccessful`
(src/services/openai_service.go). -/
def isPathSuccessful (expected : List ExpectedToolCall) (actual : List ActualToolCall) : Bool :=
  if actual.length != expected.length then false
  else (expected.zip actual).all (fun ea => isToolCallCorrect ea.1 ea.2)

/-- Embeds `(*OpenAIService).isTestSuccessfulWithPath`
(src/services/openai_service.go). -/
def isTestSuccessfulWithPath (tc : TestCase) (actual : List ActualToolCall) :
    Bool × String :=
  if tc.expectedToolVariants.length > 0 then
    match tc.expectedToolVariants.find? (fun v => isPathSuccessful v.tools actual) with
    | some variant => (true, variant.name)
    | none => (false, "")
  else if actual.length = 0 then (true, "no_tools_expected")
  else (false, "")

end OpenAISvc

/-! Agent loop (src/unnamed/part_004, `ProcessChatMessage`).  The model
endpoint is an oracle mapping the round-trip index to either a
transport failure or a reply; tool execution never fails the loop
(`ExecuteToolCalls` always returns a nil error), so the loop only
collects the requested calls as results. -/

/-- One tool call requested by the model inside an assistant reply
(name plus raw argument payload). -/
structure ToolCallReq where
  name : String
  arguments : String
  deriving Repr, DecidableEq

/-- One model round-trip outcome: a transport failure or a reply with
content and requested tool calls. -/
inductive ModelStep where
  | failure : ModelStep
  | reply : String → List ToolCallReq → ModelStep

/-- Embeds `models.ChatResponse`; only the fields the claims read
(message, collected tool calls, LLM request count). -/
structure ChatResponse where
  message : String
  toolCalls : List ToolCallReq
  llmRequests : Nat
  deriving Repr, DecidableEq

/-- Embeds `maxIterations := 5` in `ProcessChatMessage`. -/
def maxIterations : Nat := 5

/-- Embeds the fallback text substituted when the iteration cap is
reached (src/unnamed/part_004 line 176). -/
def maxOperationsMessage : String :=
  "I\x27ve reached the maximum number of operations I can perform. Let me know if you need anything else!"

/-- Embeds the `for currentIteration < maxIterations` loop of
`ProcessChatMessage`.  The fuel is `maxIterations - currentIteration`;
each pass consults the oracle at the current `llmRequests` index,
returns an error on transport failure, stops on a reply with no tool
calls, and otherwise appends the requested calls and recurses.
Returns (responseMessage, toolResults, llmRequests, currentIteration). -/
def processLoop (oracle : Nat → ModelStep) :
    Nat → Nat → Nat → List ToolCallReq → String →
    Except String (String × List ToolCallReq × Nat × Nat)
  | 0, currentIteration, llmRequests, toolResults, responseMessage =>
      .ok (responseMessage, toolResults, llmRequests, currentIteration)
  | fuel + 1, currentIteration, llmRequests, toolResults, _ =>
      match oracle llmRequests with
      | .failure => .error "failed to get AI response"
      | .reply content toolCalls =>
          if toolCalls.length = 0 then
            .ok (content, toolResults, llmRequests + 1, currentIteration)
          else
            processLoop oracle fuel (currentIteration + 1) (llmRequests + 1)
              (toolResults ++ toolCalls) content

/-- Embeds `ProcessChatMessage` (src/unnamed/part_004): runs the loop
from iteration 0 and substitutes the fallback message when the
iteration count reached the cap.  ChatSession history and cart summary
do not affect the loop control and are omitted. -/
def processChatMessage (oracle : Nat → ModelStep) : Except String ChatResponse :=
  match processLoop oracle maxIterations 0 0 [] "" with
  | .error e => .error e
  | .ok (responseMessage, toolResults, llmRequests, currentIteration) =>
      .ok { message :=
              if maxIterations ≤ currentIteration then maxOperationsMessage
              else responseMessage,
            toolCalls := toolResults,
            llmRequests := llmRequests }

/-! Cart store (src/services/cart_service.go).  The session-to-cart map
is an association list; Go map pointer mutation becomes explicit state
passing.  `float64` prices are embedded as exact rationals and the
`UpdatedAt` timestamps are dropped (no claim reads them). -/

/-- Embeds `models.CartItem`. -/
structure CartItem where
  productName : String
  quantity : Int
  price : Rat
  subtotal : Rat
  deriving Repr, DecidableEq

/-- Embeds `models.CartSummary` (timestamp dropped). -/
structure CartSummary where
  sessionID : String
  items : List CartItem
  total : Rat
  itemCount : Int
  deriving Repr, DecidableEq

/-- Embeds `models.CheckoutResult` (timestamp dropped; the order-id
timestamp is an explicit parameter of `checkoutCart`). -/
structure CheckoutResult where
  success : Bool
  orderID : String
  total : Rat
  message : String
  deriving Repr, DecidableEq

/-- Embeds `models.InitialCartItem`. -/
structure InitialCartItem where
  productName : String
  quantity : Int
  deriving Repr, DecidableEq

/-- Embeds `models.InitialCartState`. -/
structure InitialCartState where
  items : List InitialCartItem
  deriving Repr, DecidableEq

/-- The CartService state: `carts map[string]*models.CartSummary` as an
association list from session id to cart. -/
abbrev CartStore := List (String × CartSummary)

/-- Map write `cs.carts[sessionID] = cart`: replaces the binding when
present, appends it otherwise. -/
def storeSet (store : CartStore) (sessionID : String) (cart : CartSummary) : CartStore :=
  match store with
  | [] => [(sessionID, cart)]
  | (sid, c) :: rest =>
      if sid = sessionID then (sid, cart) :: rest
      else (sid, c) :: storeSet rest sessionID cart

/-- Map read `cs.carts[sessionID]` (with existence flag). -/
def storeGet (store : CartStore) (sessionID : String) : Option CartSummary :=
  (store.find? (fun p => p.1 == sessionID)).map (fun p => p.2)

/-- Embeds `getProductPrice` (src/services/cart_service.go): the mock
price map with a 99.99 default for unknown products. -/
def getProductPrice (productName : String) : Rat :=
  let priceMap : List (String × Rat) :=
    [("iPhone 15", 999.99), ("Samsung Galaxy S24", 899.99),
     ("Wireless Headphones", 199.99), ("MacBook Pro", 1999.99),
     ("Running Shoes", 129.99), ("Winter Jacket", 89.99),
     ("Coffee Maker", 79.99), ("Vacuum Cleaner", 149.99),
     ("Programming Book", 49.99), ("Cookbook", 29.99),
     ("Tennis Racket", 159.99), ("Yoga Mat", 39.99),
     ("Face Cream", 24.99), ("Shampoo", 12.99),
     ("Board Game", 34.99), ("Action Figure", 19.99),
     ("Organic Pasta", 4.99), ("Green Tea", 8.99)]
  match (priceMap.find? (fun p => p.1 == productName)).map (fun p => p.2) with
  | some price => price
  | none => 99.99

/-- Embeds `getOrCreateCart`: returns the session cart, inserting a
fresh empty cart into the store when the session has none. -/
def getOrCreateCart (store : CartStore) (sessionID : String) : CartSummary × CartStore :=
  match storeGet store sessionID with
  | some cart => (cart, store)
  | none =>
      let cart : CartSummary :=
        { sessionID := sessionID, items := [], total := 0, itemCount := 0 }
      (cart, storeSet store sessionID cart)

/-- Embeds `updateCartTotals`: total is the sum of the line subtotals
and itemCount the sum of the line quantities. -/
def updateCartTotals (cart : CartSummary) : CartSummary :=
  { cart with
    total := (cart.items.map (fun item => item.subtotal)).sum,
    itemCount := (cart.items.map (fun item => item.quantity)).sum }

/-- The in-place update loop of `AddToCart`: the first line with the
given product gets its quantity incremented and subtotal recomputed. -/
def bumpItem (items : List CartItem) (productName : String) (quantity : Int) : List CartItem :=
  match items with
  | [] => []
  | item :: rest =>
      if item.productName = productName then
        { item with
          quantity := item.quantity + quantity,
          subtotal := (item.quantity + quantity) * item.price } :: rest
      else item :: bumpItem rest productName quantity

/-- Embeds `AddToCart` (src/services/cart_service.go).  The Go function
always returns a nil error, so the embedding returns the pair directly. -/
def addToCart (store : CartStore) (sessionID productName : String) (quantity : Int) :
    CartSummary × CartStore :=
  let q := if quantity ≤ 0 then 1 else quantity
  let gc := getOrCreateCart store sessionID
  let cart := gc.1
  let items :=
    if cart.items.any (fun item => item.productName == productName) then
      bumpItem cart.items productName q
    else
      cart.items ++
        [{ productName := productName, quantity := q,
           price := getProductPrice productName,
           subtotal := q * getProductPrice productName }]
  let cart := updateCartTotals { cart with items := items }
  (cart, storeSet gc.2 sessionID cart)

/-- The removal loop of `RemoveFromCart`: deletes the first line with
the given product (no-op when absent). -/
def removeFirst (items : List CartItem) (productName : String) : List CartItem :=
  match items with
  | [] => []
  | item :: rest =>
      if item.productName = productName then rest
      else item :: removeFirst rest productName

/-- Embeds `RemoveFromCart` (always returns a nil error in Go). -/
def removeFromCart (store : CartStore) (sessionID productName : String) :
    CartSummary × CartStore :=
  let gc := getOrCreateCart store sessionID
  let cart := updateCartTotals { gc.1 with items := removeFirst gc.1.items productName }
  (cart, storeSet gc.2 sessionID cart)

/-- Embeds `GetCartSummary`: just `getOrCreateCart` (returning the cart
and the possibly-extended store). -/
def getCartSummary (store : CartStore) (sessionID : String) : CartSummary × CartStore :=
  getOrCreateCart store sessionID

/-- Embeds `CheckoutCart`: reads the cart total, clears the cart, and
returns a successful result with the order id generated from the
current Unix time (`now`). -/
def checkoutCart (store : CartStore) (sessionID : String) (now : Int) :
    CheckoutResult × CartStore :=
  let gc := getOrCreateCart store sessionID
  let cleared := { gc.1 with items := [], total := 0, itemCount := 0 }
  ({ success := true,
     orderID := "ORD-" ++ toString now,
     total := gc.1.total,
     message := "Order processed successfully" },
   storeSet gc.2 sessionID cleared)

/-- Embeds `InitializeCartState`: builds a fresh cart from the initial
items (skipping non-positive quantities), recomputes totals, and stores
it; a nil initial state leaves the store untouched. -/
def initializeCartState (store : CartStore) (sessionID : String)
    (initialState : Option InitialCartState) : CartStore :=
  match initialState with
  | none => store
  | some st =>
      let items := st.items.filterMap (fun it =>
        if it.quantity ≤ 0 then none
        else some { productName := it.productName, quantity := it.quantity,
                    price := getProductPrice it.productName,
                    subtotal := (it.quantity : Rat) * getProductPrice it.productName })
      let cart := updateCartTotals
        { sessionID := sessionID, items := items, total := 0, itemCount := 0 }
      storeSet store sessionID cart

/-! Mock shopping tools (src/tools/shopping_tools.go).  The mock cart is
the Go map `product_name -> quantity`, embedded as an association list
with unique keys. -/

namespace ShoppingTools

/-- The mock cart state `cart map[string]int`. -/
abbrev MockCart := List (String × Int)

/-- Map increment `st.cart[productName] += quantity` (missing keys read
as 0, so a missing key is inserted with the increment). -/
def mapAdd (cart : MockCart) (key : String) (quantity : Int) : MockCart :=
  match cart with
  | [] => [(key, quantity)]
  | (k, v) :: rest =>
      if k = key then (k, v + quantity) :: rest
      else (k, v) :: mapAdd rest key quantity

/-- Embeds the mock `AddToCart` (src/tools/shopping_tools.go): coerces a
non-positive quantity to 1 and increments the map entry. -/
def addToCart (cart : MockCart) (productName : String) (quantity : Int) : MockCart :=
  let q := if quantity ≤ 0 then 1 else quantity
  mapAdd cart productName q

/-- Embeds the mock `RemoveFromCart`: deletes the map entry. -/
def removeFromCart (cart : MockCart) (productName : String) : MockCart :=
  cart.filter (fun kv => kv.1 != productName)

/-- One rendered line of the mock cart view: product, quantity, price,
subtotal. -/
structure MockCartLine where
  product : String
  quantity : Int
  price : Rat
  subtotal : Rat
  deriving Repr, DecidableEq

/-- The value returned by the mock `ViewCart`. -/
structure MockCartView where
  items : List MockCartLine
  total : Rat
  itemCount : Nat
  deriving Repr, DecidableEq

/-- Embeds the mock `ViewCart` (src/tools/shopping_tools.go): every
line is priced at the 99.99 default, total sums the subtotals, and
item_count is `len(st.cart)` — the number of map entries. -/
def viewCart (cart : MockCart) : MockCartView :=
  { items := cart.map (fun kv =>
      { product := kv.1, quantity := kv.2, price := (99.99 : Rat),
        subtotal := (99.99 : Rat) * kv.2 }),
    total := (cart.map (fun kv => (99.99 : Rat) * kv.2)).sum,
    itemCount := cart.length }

end ShoppingTools

/-! Batch analyzer (src/unnamed/part_010).  A result file is embedded by
its load outcome (`loadResultFile`): either an error or the parsed list
of agent test results; the discovery and filename grouping are file
system concerns outside the embedding, so `analyzeBatch` takes the
grouped `(modelName, files)` pairs produced by `groupFilesByModel`. -/

/-- The analyzer only reads a response's tool-call names and whether the
list is non-empty; embeds the `Response.ToolCalls` view of
`models.ChatResponse` used by part_010. -/
structure AnalyzerResponse where
  toolCalls : List String
  deriving Repr, DecidableEq

/-- Embeds `models.AgentTestResult` restricted to the fields the
analyzer reads: the test case, the (possibly nil) response, and the
response time in nanoseconds. -/
structure AgentTestResult where
  testCase : TestCase
  response : Option AnalyzerResponse
  responseTime : Int
  deriving Repr, DecidableEq

/-- Embeds `MetricSet` (part_010).  The Recall field is named
`recallScore` because `recall` is reserved in the proof environment. -/
structure MetricSet where
  precision : Rat
  recallScore : Rat
  f1 : Rat
  truePositives : Nat
  falsePositives : Nat
  trueNegatives : Nat
  falseNegatives : Nat
  deriving Repr, DecidableEq

/-- Embeds `ModelAnalysis` (part_010; the result-file name list is
dropped, file identity being outside the embedding). -/
structure ModelAnalysis where
  modelName : String
  toolInvocation : MetricSet
  toolSelection : MetricSet
  averageResponseTime : Rat
  totalTests : Nat
  totalRuns : Nat
  deriving Repr, DecidableEq

/-- Embeds `calculateMetrics` (part_010): precision, recall and F1 with
a 0 default when the denominator is 0. -/
def calculateMetrics (tp fp tn fn : Nat) : MetricSet :=
  let precision : Rat := if tp + fp > 0 then (tp : Rat) / ((tp : Rat) + (fp : Rat)) else 0
  let recallScore : Rat := if tp + fn > 0 then (tp : Rat) / ((tp : Rat) + (fn : Rat)) else 0
  let f1 : Rat :=
    if precision + recallScore > 0 then 2 * (precision * recallScore) / (precision + recallScore) else 0
  { precision := precision, recallScore := recallScore, f1 := f1,
    truePositives := tp, falsePositives := fp,
    trueNegatives := tn, falseNegatives := fn }

/-- Embeds `shouldCallAnyTool` (part_010): true iff some variant has a
non-empty tool list. -/
def shouldCallAnyTool (tc : TestCase) : Bool :=
  tc.expectedToolVariants.any (fun variant => variant.tools.length > 0)

/-- Embeds the per-result branch of `calculateToolInvocationMetrics`:
whether the model did call a tool (nil response counts as none). -/
def didCallTool (result : AgentTestResult) : Bool :=
  match result.response with
  | some response => response.toolCalls.length > 0
  | none => false

/-- Embeds `calculateToolInvocationMetrics` (part_010). -/
def calculateToolInvocationMetrics (results : List AgentTestResult) : MetricSet :=
  let tp := (results.filter (fun r => shouldCallAnyTool r.testCase && didCallTool r)).length
  let tn := (results.filter (fun r => !shouldCallAnyTool r.testCase && !didCallTool r)).length
  let fp := (results.filter (fun r => !shouldCallAnyTool r.testCase && didCallTool r)).length
  let fn := (results.filter (fun r => shouldCallAnyTool r.testCase && !didCallTool r)).length
  calculateMetrics tp fp tn fn

/-- Embeds `getExpectedTools` (part_010): all tool names of all
variants, flattened. -/
def getExpectedTools (tc : TestCase) : List String :=
  tc.expectedToolVariants.flatMap (fun variant => variant.tools.map (fun tool => tool.name))

/-- Embeds `getActualTools` (part_010): tool names of the response in
emission order (nil response gives the empty list). -/
def getActualTools (response : Option AnalyzerResponse) : List String :=
  match response with
  | none => []
  | some r => r.toolCalls

/-- Embeds `matchesVariant` (part_010): same length and the same tool
name at every position. -/
def matchesVariant (expectedTools : List ExpectedToolCall) (actualTools : List String) : Bool :=
  if expectedTools.length != actualTools.length then false
  else (expectedTools.zip actualTools).all (fun ea => ea.1.name == ea.2)

/-- Embeds `matchesAnyVariant` (part_010). -/
def matchesAnyVariant (tc : TestCase) (actualTools : List String) : Bool :=
  tc.expectedToolVariants.any (fun variant => matchesVariant variant.tools actualTools)

/-- The per-result confusion cell of `calculateToolSelectionMetrics`,
as the (tp, fp, tn, fn) contribution. -/
def toolSelectionCell (result : AgentTestResult) : Nat × Nat × Nat × Nat :=
  let expectedTools := getExpectedTools result.testCase
  let actualTools := getActualTools result.response
  if expectedTools.length = 0 && actualTools.length = 0 then (0, 0, 1, 0)
  else if expectedTools.length = 0 then (0, 1, 0, 0)
  else if actualTools.length = 0 then (0, 0, 0, 1)
  else if matchesAnyVariant result.testCase actualTools then (1, 0, 0, 0)
  else (0, 1, 0, 0)

/-- Embeds `calculateToolSelectionMetrics` (part_010). -/
def calculateToolSelectionMetrics (results : List AgentTestResult) : MetricSet :=
  let cells := results.map toolSelectionCell
  calculateMetrics
    ((cells.map (fun c => c.1)).sum)
    ((cells.map (fun c => c.2.1)).sum)
    ((cells.map (fun c => c.2.2.1)).sum)
    ((cells.map (fun c => c.2.2.2)).sum)

/-- Embeds `calculateAverageResponseTime` (part_010): mean response time
converted from nanoseconds to seconds. -/
def calculateAverageResponseTime (results : List AgentTestResult) : Rat :=
  if results.length = 0 then 0
  else ((results.map (fun r => (r.responseTime : Rat))).sum / (results.length : Rat)) / 1000000000

/-- A result file as seen by `loadResultFile`: a load error or the
parsed results. -/
abbrev LoadedFile := Except String (List AgentTestResult)

/-- The file-loading loop of `analyzeModel` (part_010): concatenates
the results of the files in order, failing on the first file whose load
errors. -/
def loadAll (files : List LoadedFile) : Except String (List AgentTestResult) :=
  match files with
  | [] => .ok []
  | file :: rest =>
      match file with
      | .error e => .error ("failed to load file: " ++ e)
      | .ok results =>
          match loadAll rest with
          | .error e => .error e
          | .ok more => .ok (results ++ more)

/-- Embeds `analyzeModel` (part_010): aborts with an error as soon as
any of the model's files fails to load (or when no results were found),
otherwise computes the metrics over the concatenation of all files. -/
def analyzeModel (modelName : String) (files : List LoadedFile) :
    Except String ModelAnalysis :=
  match loadAll files with
  | .error e => .error e
  | .ok allResults =>
      if allResults.length = 0 then
        .error ("no test results found for model " ++ modelName)
      else
        .ok { modelName := modelName,
              toolInvocation := calculateToolInvocationMetrics allResults,
              toolSelection := calculateToolSelectionMetrics allResults,
              averageResponseTime := calculateAverageResponseTime allResults,
              totalTests := allResults.length,
              totalRuns := files.length }

/-- The per-model loop of `analyzeBatch` (part_010): a model whose
analysis fails is logged and skipped, the others are kept. -/
def analyzeBatchModels (groups : List (String × List LoadedFile)) : List ModelAnalysis :=
  groups.filterMap (fun g => (analyzeModel g.1 g.2).toOption)

/-- Embeds `analyzeBatch` (part_010) from the grouped files onwards:
analyzes every model group, skipping failed ones, and sorts by
tool-selection F1 descending. -/
def analyzeBatch (groups : List (String × List LoadedFile)) : List ModelAnalysis :=
  (analyzeBatchModels groups).mergeSort
    (fun a b => b.toolSelection.f1 ≤ a.toolSelection.f1)

/-! Specification-side predicates (written from the words of the spec,
to be compared with the definitions embedded from the source) and
relations used to state order- and key-insensitivity. -/

/-- Written from the spec: a variant matches the actual trace iff it
has exactly the same length, the tool name at every position is equal,
and every key of the expected argument mapping is present in the
actual mapping at that position with an equal value under normalized
(case-insensitive) string comparison.  Extra actual-side keys are not
constrained. -/
def variantMatchesSpec (v : ExpectedToolPath) (actual : List ActualToolCall) : Prop :=
  v.tools.length = actual.length ∧
  ∀ i, ∀ hi : i < v.tools.length, ∀ ha : i < actual.length,
    (v.tools.get ⟨i, hi⟩).name = (actual.get ⟨i, ha⟩).name ∧
    ∀ kv ∈ (v.tools.get ⟨i, hi⟩).arguments,
      ∃ actualValue,
        lookupArg (actual.get ⟨i, ha⟩).arguments kv.1 = some actualValue ∧
        eqFold kv.2 actualValue = true

/-- Actual call `b` extends actual call `a`: same tool name and every
key-value binding readable from `a` is readable from `b` (so `b` may
carry extra argument keys). -/
def extendsArgs (a b : ActualToolCall) : Prop :=
  a.name = b.name ∧
  ∀ key v, lookupArg a.arguments key = some v → lookupArg b.arguments key = some v

/-- Actual calls `a` and `b` differ only in the order of their argument
mapping (same tool name, permuted bindings, well-formed map with
duplicate-free keys as a Go map guarantees). -/
def argsPerm (a b : ActualToolCall) : Prop :=
  a.name = b.name ∧ a.arguments.Perm b.arguments ∧
  (a.arguments.map Prod.fst).Nodup

/-- Expected calls differing only in argument-mapping order. -/
def expArgsPerm (a b : ExpectedToolCall) : Prop :=
  a.name = b.name ∧ a.arguments.Perm b.arguments

/-- Variants differing only in the argument-mapping order of their
expected calls. -/
def variantPerm (v1 v2 : ExpectedToolPath) : Prop :=
  v1.name = v2.name ∧ List.Forall₂ expArgsPerm v1.tools v2.tools

/-- One operation against the cart store, for stating invariants over
arbitrary operation sequences. -/
inductive CartOp where
  | add (sessionID productName : String) (quantity : Int)
  | remove (sessionID productName : String)
  | view (sessionID : String)
  | doCheckout (sessionID : String) (now : Int)
  | initState (sessionID : String) (st : Option InitialCartState)

/-- State transition of one cart operation. -/
def applyOp (store : CartStore) : CartOp → CartStore
  | .add sid productName q => (addToCart store sid productName q).2
  | .remove sid productName => (removeFromCart store sid productName).2
  | .view sid => (getCartSummary store sid).2
  | .doCheckout sid now => (checkoutCart store sid now).2
  | .initState sid st => initializeCartState store sid st

/-- State after a sequence of cart operations. -/
def applyOps (store : CartStore) : List CartOp → CartStore
  | [] => store
  | op :: rest => applyOps (applyOp store op) rest

/-- The cart arithmetic invariant of the spec: the total is the sum of
quantity × price over the lines, the item count is the sum of the
quantities, and every line's stored subtotal is its quantity × price. -/
def cartInvariant (cart : CartSummary) : Prop :=
  cart.total = (cart.items.map (fun item => (item.quantity : Rat) * item.price)).sum ∧
  cart.itemCount = (cart.items.map (fun item => item.quantity)).sum ∧
  ∀ item ∈ cart.items, item.subtotal = (item.quantity : Rat) * item.price

/-- A store is well formed when every stored cart satisfies the cart
arithmetic invariant. -/
def storeInvariant (store : CartStore) : Prop :=
  ∀ sessionID cart, storeGet store sessionID = some cart → cartInvariant cart

/-! Helper lemmas shared by the claim theorems. -/

theorem lookupArg_cons (kv : String × String) (rest : Args) (key : String) :
    lookupArg (kv :: rest) key =
      if kv.1 = key then some kv.2 else lookupArg rest key := by
  by_cases h : kv.1 = key
  · rw [if_pos h]
    unfold lookupArg
    rw [List.find?_cons_of_pos _ (by simpa using h)]
    rfl
  · rw [if_neg h]
    unfold lookupArg
    rw [List.find?_cons_of_neg _ (by simpa using h)]

theorem storeGet_cons (p : String × CartSummary) (rest : CartStore) (sessionID : String) :
    storeGet (p :: rest) sessionID =
      if p.1 = sessionID then some p.2 else storeGet rest sessionID := by
  by_cases h : p.1 = sessionID
  · rw [if_pos h]
    unfold storeGet
    rw [List.find?_cons_of_pos _ (by simpa using h)]
    rfl
  · rw [if_neg h]
    unfold storeGet
    rw [List.find?_cons_of_neg _ (by simpa using h)]

theorem storeGet_storeSet_self (store : CartStore) (sid : String) (cart : CartSummary) :
    storeGet (storeSet store sid cart) sid = some cart := by
  induction store with
  | nil => simp [storeSet, storeGet_cons, storeGet]
  | cons p rest ih =>
      by_cases h : p.1 = sid
      · simp [storeSet, h, storeGet_cons]
      · simp [storeSet, h, storeGet_cons, ih]

theorem storeGet_storeSet_ne (store : CartStore) (sid sid2 : String) (cart : CartSummary)
    (h : sid2 ≠ sid) : storeGet (storeSet store sid cart) sid2 = storeGet store sid2 := by
  have hns : ¬ sid = sid2 := fun he => h he.symm
  induction store with
  | nil => simp [storeSet, storeGet_cons, storeGet, hns]
  | cons p rest ih =>
      by_cases hp : p.1 = sid
      · simp [storeSet, hp, storeGet_cons, hns]
      · simp only [storeSet, if_neg hp, storeGet_cons, ih]

theorem TR_isToolCallCorrect_iff (e : ExpectedToolCall) (a : ActualToolCall) :
    TestRunner.isToolCallCorrect e a = true ↔
      e.name = a.name ∧ ∀ kv ∈ e.arguments,
        ∃ actualValue, lookupArg a.arguments kv.1 = some actualValue ∧
          eqFold kv.2 actualValue = true := by
  unfold TestRunner.isToolCallCorrect
  by_cases h : e.name = a.name
  · simp only [h, bne_self_eq_false, Bool.false_eq_true, if_false, List.all_eq_true, true_and]
    constructor
    · intro hall kv hkv
      have hk := hall kv hkv
      cases hlk : lookupArg a.arguments kv.1 with
      | none => rw [hlk] at hk; simp at hk
      | some actualValue => rw [hlk] at hk; exact ⟨actualValue, rfl, hk⟩
    · intro hall kv hkv
      obtain ⟨actualValue, hlk, hf⟩ := hall kv hkv
      rw [hlk]
      exact hf
  · rw [if_pos (by simpa [bne_iff_ne] using h)]
    simp [h]

theorem OA_isToolCallCorrect_iff (e : ExpectedToolCall) (a : ActualToolCall) :
    OpenAISvc.isToolCallCorrect e a = true ↔
      e.name = a.name ∧ ∀ kv ∈ e.arguments,
        lookupArg a.arguments kv.1 = some kv.2 := by
  unfold OpenAISvc.isToolCallCorrect
  by_cases h : e.name = a.name
  · simp only [h, bne_self_eq_false, Bool.false_eq_true, if_false, List.all_eq_true, true_and]
    constructor
    · intro hall kv hkv
      have hk := hall kv hkv
      cases hlk : lookupArg a.arguments kv.1 with
      | none => rw [hlk] at hk; simp at hk
      | some actualValue =>
          rw [hlk] at hk
          have hv : kv.2 = actualValue := by simpa using hk
          exact congrArg some hv.symm
    · intro hall kv hkv
      rw [hall kv hkv]
      simp
  · rw [if_pos (by simpa [bne_iff_ne] using h)]
    simp [h]

theorem TR_eval_eq (tc : TestCase) (actual : List ActualToolCall)
    (hne : tc.expectedToolVariants ≠ []) :
    TestRunner.evaluateAgentResponse tc actual =
      match tc.expectedToolVariants.find?
          (fun v => TestRunner.isPathSuccessful v.tools actual) with
      | some variant => (true, variant.name)
      | none => (false, "") := by
  unfold TestRunner.evaluateAgentResponse
  rw [if_neg (by simpa [List.length_eq_zero] using hne)]

theorem OA_eval_eq (tc : TestCase) (actual : List ActualToolCall)
    (hne : tc.expectedToolVariants ≠ []) :
    OpenAISvc.isTestSuccessfulWithPath tc actual =
      match tc.expectedToolVariants.find?
          (fun v => OpenAISvc.isPathSuccessful v.tools actual) with
      | some variant => (true, variant.name)
      | none => (false, "") := by
  unfold OpenAISvc.isTestSuccessfulWithPath
  rw [if_pos (by simpa [List.length_pos] using hne)]

theorem TR_isPathSuccessful_nil (ts : List ExpectedToolCall) :
    TestRunner.isPathSuccessful ts [] = ts.isEmpty := by
  unfold TestRunner.isPathSuccessful
  cases ts <;> simp

theorem OA_isPathSuccessful_nil (ts : List ExpectedToolCall) :
    OpenAISvc.isPathSuccessful ts [] = ts.isEmpty := by
  unfold OpenAISvc.isPathSuccessful
  cases ts <;> simp

/-! Claim theorems. -/

/-- C2 counterexample: the expected and actual `add_to_cart` calls
below have argument values differing only in letter case, yet the
single-shot scorer's `isToolCallCorrect` (openai_service.go) rejects
the pair while the agent-loop matcher's `isToolCallCorrect`
(product_service.go) accepts it — so the comparison is not
case-insensitive in every implementation. -/
theorem c2_case_sensitivity_counterexample :
    eqFold "iphone 15" "iPhone 15" = true ∧
    TestRunner.isToolCallCorrect
      { name := "add_to_cart", arguments := [("product_name", "iphone 15")] }
      { name := "add_to_cart", arguments := [("product_name", "iPhone 15")] } = true ∧
    OpenAISvc.isToolCallCorrect
      { name := "add_to_cart", arguments := [("product_name", "iphone 15")] }
      { name := "add_to_cart", arguments := [("product_name", "iPhone 15")] } = false := by
  refine ⟨by decide, by decide, by decide⟩

/-- C2 (amended): the agent-loop matcher's `isToolCallCorrect` compares
argument values case-insensitively (`strings.EqualFold` of the `%v`
stringifications), while the single-shot scorer's `isToolCallCorrect`
requires the stringifications to be exactly equal (case-sensitive);
both require the tool name to be equal and every expected key to be
present, and both ignore extra actual-side keys. -/
theorem c2_amended_value_comparison (e : ExpectedToolCall) (a : ActualToolCall) :
    (TestRunner.isToolCallCorrect e a = true ↔
      e.name = a.name ∧ ∀ kv ∈ e.arguments,
        ∃ actualValue, lookupArg a.arguments kv.1 = some actualValue ∧
          eqFold kv.2 actualValue = true) ∧
    (OpenAISvc.isToolCallCorrect e a = true ↔
      e.name = a.name ∧ ∀ kv ∈ e.arguments,
        lookupArg a.arguments kv.1 = some kv.2) :=
  ⟨TR_isToolCallCorrect_iff e a, OA_isToolCallCorrect_iff e a⟩

/-- C3: for a test case with zero expected variants, both matchers
report success exactly when the actual trace is empty, and on success
both record the `no_tools_expected` sentinel as the matched path. -/
theorem c3_zero_variants_success_iff_empty (tc : TestCase) (actual : List ActualToolCall)
    (h : tc.expectedToolVariants = []) :
    ((TestRunner.evaluateAgentResponse tc actual).1 = true ↔ actual = []) ∧
    ((OpenAISvc.isTestSuccessfulWithPath tc actual).1 = true ↔ actual = []) ∧
    ((TestRunner.evaluateAgentResponse tc actual).1 = true →
      (TestRunner.evaluateAgentResponse tc actual).2 = "no_tools_expected") ∧
    ((OpenAISvc.isTestSuccessfulWithPath tc actual).1 = true →
      (OpenAISvc.isTestSuccessfulWithPath tc actual).2 = "no_tools_expected") := by
  unfold TestRunner.evaluateAgentResponse OpenAISvc.isTestSuccessfulWithPath
  by_cases ha : actual = []
  · simp [h, ha]
  · simp [h, ha, List.length_eq_zero]

/-- C3 witness: a test case with no expected variants and an empty
trace is judged a success with matched path `no_tools_expected`. -/
theorem c3_zero_variants_success_iff_empty_witness :
    (TestRunner.evaluateAgentResponse
        { name := "hello", prompt := "Hello", expectedToolVariants := [] } []).1 = true ∧
    (TestRunner.evaluateAgentResponse
        { name := "hello", prompt := "Hello", expectedToolVariants := [] } []).2 =
      "no_tools_expected" := by
  have h := c3_zero_variants_success_iff_empty
    { name := "hello", prompt := "Hello", expectedToolVariants := [] } [] rfl
  exact ⟨h.1.mpr rfl, h.2.2.1 (h.1.mpr rfl)⟩

/-- C4 counterexample: with zero expected variants and a non-empty
trace, the agent-loop matcher `evaluateAgentResponse` reports failure
yet records the non-empty matched-path string `no_tools_expected`,
contradicting the claim that failure always records an empty
matched-path string. -/
theorem c4_failure_records_path_counterexample :
    (TestRunner.evaluateAgentResponse
        { name := "t", prompt := "p", expectedToolVariants := [] }
        [{ name := "view_cart", arguments := [] }]).1 = false ∧
    (TestRunner.evaluateAgentResponse
        { name := "t", prompt := "p", expectedToolVariants := [] }
        [{ name := "view_cart", arguments := [] }]).2 = "no_tools_expected" := by
  refine ⟨rfl, rfl⟩

/-- C4 (amended): the single-shot matcher `isTestSuccessfulWithPath`
records an empty matched path on every failure, and the agent-loop
matcher `evaluateAgentResponse` does so whenever the test case has at
least one variant; on success with at least one variant both record the
name of the first matching variant in declaration order; but with zero
variants `evaluateAgentResponse` records the `no_tools_expected`
sentinel regardless of the verdict. -/
theorem c4_amended_matched_path (tc : TestCase) (actual : List ActualToolCall) :
    ((OpenAISvc.isTestSuccessfulWithPath tc actual).1 = false →
      (OpenAISvc.isTestSuccessfulWithPath tc actual).2 = "") ∧
    (tc.expectedToolVariants ≠ [] →
      (TestRunner.evaluateAgentResponse tc actual).1 = false →
      (TestRunner.evaluateAgentResponse tc actual).2 = "") ∧
    (tc.expectedToolVariants ≠ [] →
      (TestRunner.evaluateAgentResponse tc actual).1 = true →
      ∃ variant pre post,
        tc.expectedToolVariants = pre ++ variant :: post ∧
        TestRunner.isPathSuccessful variant.tools actual = true ∧
        (∀ w ∈ pre, TestRunner.isPathSuccessful w.tools actual = false) ∧
        (TestRunner.evaluateAgentResponse tc actual).2 = variant.name) ∧
    (tc.expectedToolVariants ≠ [] →
      (OpenAISvc.isTestSuccessfulWithPath tc actual).1 = true →
      ∃ variant pre post,
        tc.expectedToolVariants = pre ++ variant :: post ∧
        OpenAISvc.isPathSuccessful variant.tools actual = true ∧
        (∀ w ∈ pre, OpenAISvc.isPathSuccessful w.tools actual = false) ∧
        (OpenAISvc.isTestSuccessfulWithPath tc actual).2 = variant.name) ∧
    (tc.expectedToolVariants = [] →
      (TestRunner.evaluateAgentResponse tc actual).2 = "no_tools_expected") := by
  refine ⟨?_, ?_, ?_, ?_, ?_⟩
  · intro hfail
    by_cases hne : tc.expectedToolVariants = []
    · unfold OpenAISvc.isTestSuccessfulWithPath
      unfold OpenAISvc.isTestSuccessfulWithPath at hfail
      by_cases ha : actual.length = 0 <;> simp [hne, ha] at hfail ⊢
    · rw [OA_eval_eq tc actual hne] at hfail ⊢
      cases hf : tc.expectedToolVariants.find?
          (fun v => OpenAISvc.isPathSuccessful v.tools actual) with
      | none => rfl
      | some v => rw [hf] at hfail; simp at hfail
  · intro hne hfail
    rw [TR_eval_eq tc actual hne] at hfail ⊢
    cases hf : tc.expectedToolVariants.find?
        (fun v => TestRunner.isPathSuccessful v.tools actual) with
    | none => rfl
    | some v => rw [hf] at hfail; simp at hfail
  · intro hne hsucc
    rw [TR_eval_eq tc actual hne] at hsucc ⊢
    cases hf : tc.expectedToolVariants.find?
        (fun v => TestRunner.isPathSuccessful v.tools actual) with
    | none => rw [hf] at hsucc; simp at hsucc
    | some v =>
        rw [List.find?_eq_some] at hf
        obtain ⟨hpv, pre, post, heq, hpre⟩ := hf
        exact ⟨v, pre, post, heq, hpv, fun w hw => by simpa using hpre w hw, rfl⟩
  · intro hne hsucc
    rw [OA_eval_eq tc actual hne] at hsucc ⊢
    cases hf : tc.expectedToolVariants.find?
        (fun v => OpenAISvc.isPathSuccessful v.tools actual) with
    | none => rw [hf] at hsucc; simp at hsucc
    | some v =>
        rw [List.find?_eq_some] at hf
        obtain ⟨hpv, pre, post, heq, hpre⟩ := hf
        exact ⟨v, pre, post, heq, hpv, fun w hw => by simpa using hpre w hw, rfl⟩
  · intro hnil
    unfold TestRunner.evaluateAgentResponse
    simp [hnil]

/-- C4 (amended) witness: a concrete one-variant test case where the
trace matches, recording the variant's name as the matched path. -/
theorem c4_amended_matched_path_witness :
    ({ name := "t", prompt := "p",
       expectedToolVariants :=
         [{ name := "direct_add", description := "",
            tools := [{ name := "add_to_cart", arguments := [] }] }] } :
      TestCase).expectedToolVariants ≠ [] ∧
    (TestRunner.evaluateAgentResponse
        { name := "t", prompt := "p",
          expectedToolVariants :=
            [{ name := "direct_add", description := "",
               tools := [{ name := "add_to_cart", arguments := [] }] }] }
        [{ name := "add_to_cart", arguments := [] }]).1 = true ∧
    (∃ variant pre post,
      ({ name := "t", prompt := "p",
         expectedToolVariants :=
           [{ name := "direct_add", description := "",
              tools := [{ name := "add_to_cart", arguments := [] }] }] } :
        TestCase).expectedToolVariants = pre ++ variant :: post ∧
      TestRunner.isPathSuccessful variant.tools
        [{ name := "add_to_cart", arguments := [] }] = true ∧
      (∀ w ∈ pre, TestRunner.isPathSuccessful w.tools
        [{ name := "add_to_cart", arguments := [] }] = false) ∧
      (TestRunner.evaluateAgentResponse
          { name := "t", prompt := "p",
            expectedToolVariants :=
              [{ name := "direct_add", description := "",
                 tools := [{ name := "add_to_cart", arguments := [] }] }] }
          [{ name := "add_to_cart", arguments := [] }]).2 = variant.name) := by
  refine ⟨by simp, rfl, ?_⟩
  exact (c4_amended_matched_path
      { name := "t", prompt := "p",
        expectedToolVariants :=
          [{ name := "direct_add", description := "",
             tools := [{ name := "add_to_cart", arguments := [] }] }] }
      [{ name := "add_to_cart", arguments := [] }]).2.2.1 (by simp) rfl

/-- C6 counterexample: viewing the cart of a session that has no cart
yet mutates the store — the session-to-cart mapping gains an entry, so
it is not identical before and after the call. -/
theorem c6_view_cart_mutates_counterexample :
    storeGet ([] : CartStore) "session_1" = none ∧
    (getCartSummary [] "session_1").2 ≠ ([] : CartStore) := by
  refine ⟨rfl, by decide⟩

/-- C6 (amended): `GetCartSummary` leaves the store unchanged for any
session that already has a cart (and returns that cart unchanged); for
a session with no cart it returns a fresh empty snapshot and the only
store change is the lazy insertion of that empty cart — every other
session's binding is untouched in all cases. -/
theorem c6_amended_view_cart_frame (store : CartStore) (sessionID : String) :
    (∀ cart, storeGet store sessionID = some cart →
      getCartSummary store sessionID = (cart, store)) ∧
    (storeGet store sessionID = none →
      (getCartSummary store sessionID).1 =
        { sessionID := sessionID, items := [], total := 0, itemCount := 0 } ∧
      storeGet (getCartSummary store sessionID).2 sessionID =
        some { sessionID := sessionID, items := [], total := 0, itemCount := 0 }) ∧
    (∀ sid2, sid2 ≠ sessionID →
      storeGet (getCartSummary store sessionID).2 sid2 = storeGet store sid2) := by
  refine ⟨?_, ?_, ?_⟩
  · intro cart hget
    unfold getCartSummary getOrCreateCart
    rw [hget]
  · intro hget
    unfold getCartSummary getOrCreateCart
    rw [hget]
    exact ⟨rfl, storeGet_storeSet_self store sessionID _⟩
  · intro sid2 hne
    unfold getCartSummary getOrCreateCart
    cases hget : storeGet store sessionID with
    | some cart => rfl
    | none => exact storeGet_storeSet_ne store sessionID sid2 _ hne

/-- C6 (amended) witness: on a store already holding a cart for session
`s`, viewing it returns that cart and the untouched store. -/
theorem c6_amended_view_cart_frame_witness :
    storeGet
        [("s", { sessionID := "s", items := [], total := 0, itemCount := 0 })] "s" =
      some { sessionID := "s", items := [], total := 0, itemCount := 0 } ∧
    getCartSummary
        [("s", { sessionID := "s", items := [], total := 0, itemCount := 0 })] "s" =
      ({ sessionID := "s", items := [], total := 0, itemCount := 0 },
       [("s", { sessionID := "s", items := [], total := 0, itemCount := 0 })]) := by
  refine ⟨by decide, ?_⟩
  exact (c6_amended_view_cart_frame
      [("s", { sessionID := "s", items := [], total := 0, itemCount := 0 })] "s").1
    { sessionID := "s", items := [], total := 0, itemCount := 0 } (by decide)

/-- C8: checkout returns a successful result whose order id is
generated from the current time and whose total is the session's cart
total immediately before the call (0 when the session had no cart), and
afterwards the session's stored cart has no items, zero total and zero
item count. -/
theorem c8_checkout_resets_cart (store : CartStore) (sessionID : String) (now : Int) :
    (checkoutCart store sessionID now).1.success = true ∧
    (checkoutCart store sessionID now).1.orderID = "ORD-" ++ toString now ∧
    (∀ cart, storeGet store sessionID = some cart →
      (checkoutCart store sessionID now).1.total = cart.total) ∧
    (storeGet store sessionID = none →
      (checkoutCart store sessionID now).1.total = 0) ∧
    (∃ cleared, storeGet (checkoutCart store sessionID now).2 sessionID = some cleared ∧
      cleared.items = [] ∧ cleared.total = 0 ∧ cleared.itemCount = 0) := by
  unfold checkoutCart getOrCreateCart
  cases hget : storeGet store sessionID with
  | some cart =>
      refine ⟨rfl, rfl, ?_, ?_, ?_⟩
      · intro c hc
        cases hc
        rfl
      · intro hc; simp at hc
      · exact ⟨_, storeGet_storeSet_self _ sessionID _, rfl, rfl, rfl⟩
  | none =>
      refine ⟨rfl, rfl, ?_, ?_, ?_⟩
      · intro c hc; simp at hc
      · intro _; rfl
      · exact ⟨_, storeGet_storeSet_self _ sessionID _, rfl, rfl, rfl⟩

/-- C8 witness: checking out a session holding one cart line returns
that cart's total and resets the stored cart to empty. -/
theorem c8_checkout_resets_cart_witness :
    storeGet
        [("s", { sessionID := "s",
                 items := [{ productName := "Green Tea", quantity := 2,
                             price := 9, subtotal := 18 }],
                 total := 18, itemCount := 2 })] "s" =
      some { sessionID := "s",
             items := [{ productName := "Green Tea", quantity := 2,
                         price := 9, subtotal := 18 }],
             total := 18, itemCount := 2 } ∧
    (checkoutCart
        [("s", { sessionID := "s",
                 items := [{ productName := "Green Tea", quantity := 2,
                             price := 9, subtotal := 18 }],
                 total := 18, itemCount := 2 })] "s" 1700000000).1.total = 18 := by
  refine ⟨by decide, ?_⟩
  exact (c8_checkout_resets_cart
      [("s", { sessionID := "s",
               items := [{ productName := "Green Tea", quantity := 2,
                           price := 9, subtotal := 18 }],
               total := 18, itemCount := 2 })] "s" 1700000000).2.2.1
    { sessionID := "s",
      items := [{ productName := "Green Tea", quantity := 2,
                  price := 9, subtotal := 18 }],
      total := 18, itemCount := 2 } (by decide)

/-- C10: a test case whose variant list contains a variant with an
empty tool list is handled by the variant branch, not the zero-variant
rule: an empty actual trace is scored a success and the matched path is
the name of the first variant (in declaration order) whose tool list is
empty, by both matchers. -/
theorem c10_empty_tools_variant (tc : TestCase) (v : ExpectedToolPath)
    (hne : tc.expectedToolVariants ≠ [])
    (hfind : tc.expectedToolVariants.find? (fun w => w.tools.isEmpty) = some v) :
    TestRunner.evaluateAgentResponse tc [] = (true, v.name) ∧
    OpenAISvc.isTestSuccessfulWithPath tc [] = (true, v.name) ∧
    v.tools = [] ∧
    (∃ pre post, tc.expectedToolVariants = pre ++ v :: post ∧
      ∀ w ∈ pre, w.tools ≠ []) := by
  have hTR : (fun w : ExpectedToolPath => TestRunner.isPathSuccessful w.tools []) =
      (fun w : ExpectedToolPath => w.tools.isEmpty) :=
    funext fun w => TR_isPathSuccessful_nil w.tools
  have hOA : (fun w : ExpectedToolPath => OpenAISvc.isPathSuccessful w.tools []) =
      (fun w : ExpectedToolPath => w.tools.isEmpty) :=
    funext fun w => OA_isPathSuccessful_nil w.tools
  have hv : v.tools = [] := by
    have := List.find?_some hfind
    simpa [List.isEmpty_iff] using this
  refine ⟨?_, ?_, hv, ?_⟩
  · rw [TR_eval_eq tc [] hne, hTR, hfind]
  · rw [OA_eval_eq tc [] hne, hOA, hfind]
  · rw [List.find?_eq_some] at hfind
    obtain ⟨_, pre, post, heq, hpre⟩ := hfind
    refine ⟨pre, post, heq, fun w hw => ?_⟩
    have := hpre w hw
    simpa [List.isEmpty_iff] using this

/-- C10 witness: a test case with a single empty-tools variant named
`no_action` scores an empty trace as a success matched to `no_action`
rather than to the `no_tools_expected` sentinel. -/
theorem c10_empty_tools_variant_witness :
    TestRunner.evaluateAgentResponse
        { name := "t", prompt := "p",
          expectedToolVariants :=
            [{ name := "no_action", description := "", tools := [] }] } [] =
      (true, "no_action") ∧
    OpenAISvc.isTestSuccessfulWithPath
        { name := "t", prompt := "p",
          expectedToolVariants :=
            [{ name := "no_action", description := "", tools := [] }] } [] =
      (true, "no_action") :=
  have h := c10_empty_tools_variant
    { name := "t", prompt := "p",
      expectedToolVariants :=
        [{ name := "no_action", description := "", tools := [] }] }
    { name := "no_action", description := "", tools := [] }
    (by simp) (by decide)
  ⟨h.1, h.2.1⟩

theorem loadAll_error_of_mem_error (files : List LoadedFile)
    (h : ∃ e, Except.error e ∈ files) : ∃ e2, loadAll files = .error e2 := by
  induction files with
  | nil => obtain ⟨e, he⟩ := h; cases he
  | cons file rest ih =>
      obtain ⟨e, he⟩ := h
      cases he with
      | head => exact ⟨"failed to load file: " ++ e, rfl⟩
      | tail _ hmem =>
          cases file with
          | error e0 => exact ⟨"failed to load file: " ++ e0, rfl⟩
          | ok results =>
              obtain ⟨e2, he2⟩ := ih ⟨e, hmem⟩
              refine ⟨e2, ?_⟩
              unfold loadAll
              rw [he2]

/-- C9 counterexample: a model group containing one readable file with
a result and one unreadable file is dropped in its entirety —
`analyzeModel` fails and `analyzeBatch` excludes the model — so the
readable file's results are discarded, contrary to the claim that only
the malformed file is skipped. -/
theorem c9_file_error_discards_model_counterexample :
    (∃ e, analyzeModel "m"
        [Except.ok [{ testCase := { name := "t", prompt := "p",
                                    expectedToolVariants := [] },
                      response := some { toolCalls := [] }, responseTime := 0 }],
         Except.error "unreadable"] = .error e) ∧
    analyzeBatch [("m",
        [Except.ok [{ testCase := { name := "t", prompt := "p",
                                    expectedToolVariants := [] },
                      response := some { toolCalls := [] }, responseTime := 0 }],
         Except.error "unreadable"])] = [] := by
  refine ⟨⟨"failed to load file: unreadable", rfl⟩, ?_⟩
  simp [analyzeBatch, analyzeBatchModels, analyzeModel, loadAll, Except.toOption]

/-- C9 (amended): one unreadable or malformed result file makes
`analyzeModel` fail for the whole model group holding it (all of that
model's results are discarded, including those of its readable files,
and `analyzeBatch` logs a warning and skips the model), while any other
model group that analyzes successfully still appears in the batch
report. -/
theorem c9_amended_file_error_isolation
    (groups : List (String × List LoadedFile)) (name : String) (files : List LoadedFile) :
    ((∃ e, Except.error e ∈ files) → ∃ e2, analyzeModel name files = .error e2) ∧
    ((name, files) ∈ groups →
      ∀ a, analyzeModel name files = .ok a → a ∈ analyzeBatch groups) := by
  constructor
  · intro h
    obtain ⟨e2, he2⟩ := loadAll_error_of_mem_error files h
    refine ⟨e2, ?_⟩
    unfold analyzeModel
    rw [he2]
  · intro hmem a ha
    unfold analyzeBatch
    rw [List.mem_mergeSort]
    unfold analyzeBatchModels
    rw [List.mem_filterMap]
    exact ⟨(name, files), hmem, by rw [ha]; rfl⟩

/-- C9 (amended) witness: a group with a readable and an unreadable
file fails as a whole. -/
theorem c9_amended_file_error_isolation_witness :
    (∃ e, Except.error e ∈
      ([Except.ok [{ testCase := { name := "t", prompt := "p",
                                   expectedToolVariants := [] },
                     response := some { toolCalls := [] }, responseTime := 0 }],
        Except.error "unreadable"] : List LoadedFile)) ∧
    (∃ e2, analyzeModel "m"
        [Except.ok [{ testCase := { name := "t", prompt := "p",
                                    expectedToolVariants := [] },
                      response := some { toolCalls := [] }, responseTime := 0 }],
         Except.error "unreadable"] = .error e2) :=
  ⟨⟨"unreadable", by simp⟩,
   (c9_amended_file_error_isolation [] "m"
      [Except.ok [{ testCase := { name := "t", prompt := "p",
                                  expectedToolVariants := [] },
                    response := some { toolCalls := [] }, responseTime := 0 }],
       Except.error "unreadable"]).1 ⟨"unreadable", by simp⟩⟩

/-- C7 counterexample: after adding two units of one product to the
mock cart, the mock `ViewCart` reports item_count 1 (the number of map
entries) while the sum of the line quantities is 2 — so the item-count
law does not hold for the tool catalog's mock `ViewCart`. -/
theorem c7_mock_item_count_counterexample :
    ((ShoppingTools.addToCart [] "Board Game" 2).map (fun kv => kv.2)).sum = 2 ∧
    (ShoppingTools.viewCart (ShoppingTools.addToCart [] "Board Game" 2)).itemCount = 1 := by
  refine ⟨by decide, rfl⟩

theorem processLoop_ok_bounds (oracle : Nat → ModelStep) :
    ∀ fuel currentIteration llmRequests toolResults responseMessage msg res reqs iter,
      processLoop oracle fuel currentIteration llmRequests toolResults responseMessage =
        .ok (msg, res, reqs, iter) →
      reqs ≤ llmRequests + fuel ∧ iter ≤ currentIteration + fuel := by
  intro fuel
  induction fuel with
  | zero =>
      intro currentIteration llmRequests toolResults responseMessage msg res reqs iter h
      unfold processLoop at h
      cases h
      omega
  | succ n ih =>
      intro currentIteration llmRequests toolResults responseMessage msg res reqs iter h
      unfold processLoop at h
      split at h
      · cases h
      · split at h
        · cases h; omega
        · have := ih _ _ _ _ _ _ _ _ h
          omega

theorem processLoop_congr (o1 o2 : Nat → ModelStep) :
    ∀ fuel currentIteration llmRequests toolResults responseMessage,
      (∀ i, llmRequests ≤ i → i < llmRequests + fuel → o1 i = o2 i) →
      processLoop o1 fuel currentIteration llmRequests toolResults responseMessage =
      processLoop o2 fuel currentIteration llmRequests toolResults responseMessage := by
  intro fuel
  induction fuel with
  | zero => intro _ _ _ _ _; rfl
  | succ n ih =>
      intro currentIteration llmRequests toolResults responseMessage hagree
      unfold processLoop
      rw [hagree llmRequests (Nat.le_refl _) (by omega)]
      cases ho : o2 llmRequests with
      | failure => rfl
      | reply content toolCalls =>
          dsimp only
          split
          · rfl
          · exact ih (currentIteration + 1) (llmRequests + 1)
              (toolResults ++ toolCalls) content
              (fun i h1 h2 => hagree i (by omega) (by omega))

theorem processLoop_error_has_failure (oracle : Nat → ModelStep) :
    ∀ fuel currentIteration llmRequests toolResults responseMessage e,
      processLoop oracle fuel currentIteration llmRequests toolResults responseMessage =
        .error e →
      ∃ i, llmRequests ≤ i ∧ i < llmRequests + fuel ∧ oracle i = .failure := by
  intro fuel
  induction fuel with
  | zero =>
      intro _ _ _ _ e h
      unfold processLoop at h
      cases h
  | succ n ih =>
      intro currentIteration llmRequests toolResults responseMessage e h
      unfold processLoop at h
      split at h
      · rename_i heq
        exact ⟨llmRequests, Nat.le_refl _, by omega, heq⟩
      · split at h
        · cases h
        · obtain ⟨i, h1, h2, h3⟩ := ih _ _ _ _ _ h
          exact ⟨i, by omega, by omega, h3⟩

/-- C5: the agent loop always terminates (it is a total function of the
oracle), performs at most 5 model round-trips — the result depends only
on the oracle's first 5 answers and a completed response reports at
most 5 LLM requests — and runs at most 5 tool-executing iterations;
when the iteration cap is reached the returned value is a completed
(non-error) response whose message is the fixed maximum-operations
fallback text, while an error is returned only when some round-trip
among the first 5 was a transport failure. -/
theorem c5_agent_loop_bounded (oracle o2 : Nat → ModelStep) :
    ((∀ i, i < 5 → oracle i = o2 i) →
      processChatMessage oracle = processChatMessage o2) ∧
    (∀ r, processChatMessage oracle = .ok r → r.llmRequests ≤ 5) ∧
    (∀ msg res reqs iter,
      processLoop oracle maxIterations 0 0 [] "" = .ok (msg, res, reqs, iter) →
      iter ≤ 5 ∧ reqs ≤ 5 ∧
      (5 ≤ iter →
        ∃ r, processChatMessage oracle = .ok r ∧
          r.message = maxOperationsMessage)) ∧
    (∀ e, processChatMessage oracle = .error e →
      ∃ i, i < 5 ∧ oracle i = .failure) := by
  refine ⟨?_, ?_, ?_, ?_⟩
  · intro hagree
    unfold processChatMessage
    rw [processLoop_congr oracle o2 maxIterations 0 0 [] ""
      (fun i h1 h2 => hagree i (by simpa [maxIterations] using h2))]
  · intro r hr
    unfold processChatMessage at hr
    cases hloop : processLoop oracle maxIterations 0 0 [] "" with
    | error e => rw [hloop] at hr; cases hr
    | ok out =>
        obtain ⟨msg, res, reqs, iter⟩ := out
        rw [hloop] at hr
        cases hr
        have := processLoop_ok_bounds oracle maxIterations 0 0 [] "" msg res reqs iter hloop
        simpa [maxIterations] using this.1
  · intro msg res reqs iter hloop
    have hb := processLoop_ok_bounds oracle maxIterations 0 0 [] "" msg res reqs iter hloop
    refine ⟨by simpa [maxIterations] using hb.2, by simpa [maxIterations] using hb.1, ?_⟩
    intro hcap
    refine ⟨{ message := maxOperationsMessage, toolCalls := res, llmRequests := reqs }, ?_, rfl⟩
    unfold processChatMessage
    rw [hloop]
    have hle : maxIterations ≤ iter := by simpa [maxIterations] using hcap
    dsimp only
    rw [if_pos hle]
  · intro e he
    unfold processChatMessage at he
    cases hloop : processLoop oracle maxIterations 0 0 [] "" with
    | error e0 =>
        obtain ⟨i, h1, h2, h3⟩ := processLoop_error_has_failure oracle maxIterations 0 0 [] "" e0 hloop
        exact ⟨i, by simpa [maxIterations] using h2, h3⟩
    | ok out => rw [hloop] at he; cases he

/-- C5 witness: an oracle that always requests a tool call drives the
loop to the cap — 5 round-trips, 5 tool-executing iterations, and a
completed response carrying the fallback message. -/
theorem c5_agent_loop_bounded_witness :
    processLoop (fun _ => ModelStep.reply "working" [{ name := "view_cart", arguments := "" }])
        maxIterations 0 0 [] "" =
      .ok ("working",
        [{ name := "view_cart", arguments := "" }, { name := "view_cart", arguments := "" },
         { name := "view_cart", arguments := "" }, { name := "view_cart", arguments := "" },
         { name := "view_cart", arguments := "" }], 5, 5) ∧
    (∃ r, processChatMessage
        (fun _ => ModelStep.reply "working" [{ name := "view_cart", arguments := "" }]) =
      .ok r ∧ r.message = maxOperationsMessage) := by
  refine ⟨rfl, ?_⟩
  exact ((c5_agent_loop_bounded
      (fun _ => ModelStep.reply "working" [{ name := "view_cart", arguments := "" }])
      (fun _ => ModelStep.reply "working" [{ name := "view_cart", arguments := "" }])).2.2.1
    "working"
    [{ name := "view_cart", arguments := "" }, { name := "view_cart", arguments := "" },
     { name := "view_cart", arguments := "" }, { name := "view_cart", arguments := "" },
     { name := "view_cart", arguments := "" }] 5 5 rfl).2.2 (Nat.le_refl 5)

theorem cartInvariant_empty (sid : String) :
    cartInvariant { sessionID := sid, items := [], total := 0, itemCount := 0 } := by
  refine ⟨rfl, rfl, ?_⟩
  intro item h
  cases h

theorem updateCartTotals_invariant (cart : CartSummary)
    (h : ∀ item ∈ cart.items, item.subtotal = (item.quantity : Rat) * item.price) :
    cartInvariant (updateCartTotals cart) := by
  refine ⟨?_, rfl, ?_⟩
  · exact congrArg List.sum (List.map_congr_left h)
  · intro item hmem
    exact h item hmem

theorem bumpItem_subtotal_ok (items : List CartItem) (productName : String) (q : Int)
    (h : ∀ item ∈ items, item.subtotal = (item.quantity : Rat) * item.price) :
    ∀ item ∈ bumpItem items productName q,
      item.subtotal = (item.quantity : Rat) * item.price := by
  induction items with
  | nil => intro item hmem; cases hmem
  | cons x rest ih =>
      intro item hmem
      unfold bumpItem at hmem
      by_cases hx : x.productName = productName
      · rw [if_pos hx] at hmem
        cases hmem with
        | head => dsimp only; push_cast; ring
        | tail _ hm => exact h item (List.mem_cons_of_mem x hm)
      · rw [if_neg hx] at hmem
        cases hmem with
        | head => exact h x (List.mem_cons_self x rest)
        | tail _ hm => exact ih (fun i hi => h i (List.mem_cons_of_mem x hi)) item hm

theorem removeFirst_subset (items : List CartItem) (productName : String) :
    ∀ item ∈ removeFirst items productName, item ∈ items := by
  induction items with
  | nil => intro item hmem; cases hmem
  | cons x rest ih =>
      intro item hmem
      unfold removeFirst at hmem
      by_cases hx : x.productName = productName
      · rw [if_pos hx] at hmem
        exact List.mem_cons_of_mem x hmem
      · rw [if_neg hx] at hmem
        cases hmem with
        | head => exact List.mem_cons_self x rest
        | tail _ hm => exact List.mem_cons_of_mem x (ih item hm)

theorem storeInvariant_storeSet (store : CartStore) (sid : String) (cart : CartSummary)
    (hs : storeInvariant store) (hc : cartInvariant cart) :
    storeInvariant (storeSet store sid cart) := by
  intro sid2 cart2 hget
  by_cases h : sid2 = sid
  · subst h
    rw [storeGet_storeSet_self] at hget
    cases hget
    exact hc
  · rw [storeGet_storeSet_ne store sid sid2 cart h] at hget
    exact hs sid2 cart2 hget

theorem getOrCreateCart_invariant (store : CartStore) (sid : String)
    (hs : storeInvariant store) :
    cartInvariant (getOrCreateCart store sid).1 ∧
    storeInvariant (getOrCreateCart store sid).2 := by
  unfold getOrCreateCart
  cases hget : storeGet store sid with
  | some cart => exact ⟨hs sid cart hget, hs⟩
  | none =>
      exact ⟨cartInvariant_empty sid,
        storeInvariant_storeSet store sid _ hs (cartInvariant_empty sid)⟩

theorem storeInvariant_applyOp (store : CartStore) (op : CartOp)
    (hs : storeInvariant store) : storeInvariant (applyOp store op) := by
  cases op with
  | add sid productName q =>
      have hg := getOrCreateCart_invariant store sid hs
      show storeInvariant (addToCart store sid productName q).2
      unfold addToCart
      dsimp only
      apply storeInvariant_storeSet _ _ _ hg.2
      apply updateCartTotals_invariant
      intro item hmem
      dsimp only at hmem
      by_cases hany : (getOrCreateCart store sid).1.items.any
          (fun it => it.productName == productName)
      · rw [if_pos hany] at hmem
        exact bumpItem_subtotal_ok _ _ _ hg.1.2.2 item hmem
      · rw [if_neg hany] at hmem
        rcases List.mem_append.mp hmem with hm | hm
        · exact hg.1.2.2 item hm
        · cases List.mem_singleton.mp hm
          rfl
  | remove sid productName =>
      have hg := getOrCreateCart_invariant store sid hs
      show storeInvariant (removeFromCart store sid productName).2
      unfold removeFromCart
      dsimp only
      apply storeInvariant_storeSet _ _ _ hg.2
      apply updateCartTotals_invariant
      intro item hmem
      exact hg.1.2.2 item (removeFirst_subset _ _ item hmem)
  | view sid =>
      exact (getOrCreateCart_invariant store sid hs).2
  | doCheckout sid now =>
      have hg := getOrCreateCart_invariant store sid hs
      show storeInvariant (checkoutCart store sid now).2
      unfold checkoutCart
      dsimp only
      apply storeInvariant_storeSet _ _ _ hg.2
      refine ⟨rfl, rfl, ?_⟩
      intro item h
      cases h
  | initState sid st =>
      cases st with
      | none => exact hs
      | some st0 =>
          show storeInvariant (initializeCartState store sid (some st0))
          unfold initializeCartState
          dsimp only
          apply storeInvariant_storeSet _ _ _ hs
          apply updateCartTotals_invariant
          intro item hmem
          dsimp only at hmem
          rw [List.mem_filterMap] at hmem
          obtain ⟨it, hit, heq⟩ := hmem
          by_cases hq : it.quantity ≤ 0
          · rw [if_pos hq] at heq; cases heq
          · rw [if_neg hq] at heq
            cases heq
            rfl

theorem storeInvariant_applyOps (ops : List CartOp) :
    ∀ store, storeInvariant store → storeInvariant (applyOps store ops) := by
  induction ops with
  | nil => intro store hs; exact hs
  | cons op rest ih =>
      intro store hs
      exact ih _ (storeInvariant_applyOp store op hs)

/-- C7 (amended): after any sequence of cart-store operations starting
from a well-formed store, every stored cart and every cart returned by
the view/summary operation satisfies the cart arithmetic laws (total is
the sum of quantity × price over the lines and item count is the sum of
the quantities); the tool catalog's mock `ViewCart` satisfies the total
law (every line priced at the default), but its item_count is the
number of distinct product lines, not the sum of the quantities. -/
theorem c7_amended_cart_invariant (ops : List CartOp) (store : CartStore)
    (hstore : storeInvariant store) :
    (∀ sessionID cart, storeGet (applyOps store ops) sessionID = some cart →
      cart.total =
        (cart.items.map (fun item => (item.quantity : Rat) * item.price)).sum ∧
      cart.itemCount = (cart.items.map (fun item => item.quantity)).sum) ∧
    (∀ sessionID, cartInvariant (getCartSummary (applyOps store ops) sessionID).1) ∧
    (∀ mock : ShoppingTools.MockCart,
      (ShoppingTools.viewCart mock).total =
        ((ShoppingTools.viewCart mock).items.map
          (fun line => (line.quantity : Rat) * line.price)).sum ∧
      (ShoppingTools.viewCart mock).itemCount = mock.length) := by
  have hinv := storeInvariant_applyOps ops store hstore
  refine ⟨?_, ?_, ?_⟩
  · intro sid cart hget
    have h := hinv sid cart hget
    exact ⟨h.1, h.2.1⟩
  · intro sid
    exact (getOrCreateCart_invariant _ sid hinv).1
  · intro mock
    refine ⟨?_, rfl⟩
    unfold ShoppingTools.viewCart
    dsimp only
    rw [List.map_map]
    exact congrArg List.sum (List.map_congr_left (fun kv _ => by
      dsimp only [Function.comp]
      ring))

/-- C7 (amended) witness: starting from the empty store (vacuously well
formed), adding two units of a product leaves the viewed cart
satisfying the arithmetic laws. -/
theorem c7_amended_cart_invariant_witness :
    storeInvariant ([] : CartStore) ∧
    cartInvariant (getCartSummary (applyOps [] [CartOp.add "s" "Green Tea" 2]) "s").1 := by
  have hemp : storeInvariant ([] : CartStore) := by
    intro sid cart h
    simp [storeGet] at h
  exact ⟨hemp,
    (c7_amended_cart_invariant [CartOp.add "s" "Green Tea" 2] [] hemp).2.1 "s"⟩

theorem TR_isPathSuccessful_iff (exp : List ExpectedToolCall) (act : List ActualToolCall) :
    TestRunner.isPathSuccessful exp act = true ↔
      List.Forall₂ (fun e a => TestRunner.isToolCallCorrect e a = true) exp act := by
  unfold TestRunner.isPathSuccessful
  rw [List.forall₂_iff_zip]
  by_cases h : act.length = exp.length
  · rw [if_neg (by simp [bne_iff_ne, h])]
    rw [List.all_eq_true]
    constructor
    · intro hall
      exact ⟨h.symm, fun hmem => hall _ hmem⟩
    · rintro ⟨-, hz⟩ p hp
      obtain ⟨a, b⟩ := p
      exact hz hp
  · rw [if_pos (by simpa [bne_iff_ne] using h)]
    simp only [Bool.false_eq_true, false_iff, not_and]
    intro hlen
    exact absurd hlen.symm h

theorem TR_variant_iff_spec (v : ExpectedToolPath) (actual : List ActualToolCall) :
    TestRunner.isPathSuccessful v.tools actual = true ↔ variantMatchesSpec v actual := by
  rw [TR_isPathSuccessful_iff, List.forall₂_iff_get]
  unfold variantMatchesSpec
  constructor
  · rintro ⟨hlen, hp⟩
    exact ⟨hlen, fun i h1 h2 => (TR_isToolCallCorrect_iff _ _).mp (hp i h1 h2)⟩
  · rintro ⟨hlen, hp⟩
    exact ⟨hlen, fun i h1 h2 => (TR_isToolCallCorrect_iff _ _).mpr (hp i h1 h2)⟩

theorem TR_eval_fst_iff_exists (tc : TestCase) (actual : List ActualToolCall)
    (hne : tc.expectedToolVariants ≠ []) :
    (TestRunner.evaluateAgentResponse tc actual).1 = true ↔
      ∃ v ∈ tc.expectedToolVariants,
        TestRunner.isPathSuccessful v.tools actual = true := by
  rw [TR_eval_eq tc actual hne]
  cases hf : tc.expectedToolVariants.find?
      (fun v => TestRunner.isPathSuccessful v.tools actual) with
  | none =>
      rw [List.find?_eq_none] at hf
      constructor
      · intro hfalse
        exact absurd hfalse (by simp)
      · rintro ⟨v, hv, hp⟩
        exact absurd hp (by simpa using hf v hv)
  | some v =>
      constructor
      · intro _
        refine ⟨v, List.mem_of_find?_eq_some hf, ?_⟩
        have hp := List.find?_some hf
        simpa using hp
      · intro _
        rfl

theorem TR_isToolCallCorrect_extends (e : ExpectedToolCall) (a b : ActualToolCall)
    (hab : extendsArgs a b) (h : TestRunner.isToolCallCorrect e a = true) :
    TestRunner.isToolCallCorrect e b = true := by
  rw [TR_isToolCallCorrect_iff] at h ⊢
  obtain ⟨hname, hargs⟩ := h
  refine ⟨hname.trans hab.1, fun kv hkv => ?_⟩
  obtain ⟨av, hlk, hf⟩ := hargs kv hkv
  exact ⟨av, hab.2 kv.1 av hlk, hf⟩

theorem TR_isPathSuccessful_extends (exp : List ExpectedToolCall)
    (act1 act2 : List ActualToolCall) (hext : List.Forall₂ extendsArgs act1 act2)
    (h : TestRunner.isPathSuccessful exp act1 = true) :
    TestRunner.isPathSuccessful exp act2 = true := by
  rw [TR_isPathSuccessful_iff, List.forall₂_iff_get] at h ⊢
  have hlen12 := hext.length_eq
  obtain ⟨hlen, hp⟩ := h
  refine ⟨by omega, fun i h1 h2 => ?_⟩
  have h2a : i < act1.length := by omega
  exact TR_isToolCallCorrect_extends _ _ _ (hext.get h2a h2) (hp i h1 h2a)

theorem lookupArg_perm (key : String) :
    ∀ {args1 args2 : Args}, args1.Perm args2 →
      (args1.map Prod.fst).Nodup →
      lookupArg args1 key = lookupArg args2 key := by
  intro args1 args2 hperm
  induction hperm with
  | nil => intro _; rfl
  | cons x htail ih =>
      intro hnd
      rw [lookupArg_cons, lookupArg_cons]
      by_cases hx : x.1 = key
      · rw [if_pos hx, if_pos hx]
      · rw [if_neg hx, if_neg hx]
        exact ih (List.Nodup.of_cons (by rw [List.map_cons] at hnd; exact hnd))
  | swap x y l =>
      intro hnd
      rw [lookupArg_cons, lookupArg_cons, lookupArg_cons, lookupArg_cons]
      by_cases hy : y.1 = key <;> by_cases hx : x.1 = key
      · exfalso
        have hnd2 : (y.1 :: x.1 :: l.map Prod.fst).Nodup := by
          rw [List.map_cons, List.map_cons] at hnd
          exact hnd
        have hninq : y.1 ∉ x.1 :: l.map Prod.fst := (List.nodup_cons.mp hnd2).1
        exact hninq (by rw [hy, ← hx]; exact List.mem_cons_self _ _)
      · rw [if_pos hy, if_neg hx, if_pos hy]
      · rw [if_neg hy, if_pos hx, if_pos hx]
      · rw [if_neg hy, if_neg hx, if_neg hx, if_neg hy]
  | trans h12 h23 ih12 ih23 =>
      intro hnd
      rw [ih12 hnd, ih23 ((h12.map Prod.fst).nodup_iff.mp hnd)]

theorem TR_isToolCallCorrect_argsPerm (e : ExpectedToolCall) (a b : ActualToolCall)
    (hab : argsPerm a b) :
    TestRunner.isToolCallCorrect e a = TestRunner.isToolCallCorrect e b := by
  obtain ⟨hname, hperm, hnd⟩ := hab
  rw [Bool.eq_iff_iff, TR_isToolCallCorrect_iff, TR_isToolCallCorrect_iff, hname]
  constructor
  · rintro ⟨h1, h2⟩
    refine ⟨h1, fun kv hkv => ?_⟩
    obtain ⟨av, hlk, hf⟩ := h2 kv hkv
    exact ⟨av, (lookupArg_perm kv.1 hperm hnd) ▸ hlk, hf⟩
  · rintro ⟨h1, h2⟩
    refine ⟨h1, fun kv hkv => ?_⟩
    obtain ⟨av, hlk, hf⟩ := h2 kv hkv
    exact ⟨av, (lookupArg_perm kv.1 hperm hnd).symm ▸ hlk, hf⟩

theorem TR_isToolCallCorrect_expPerm (e1 e2 : ExpectedToolCall) (a : ActualToolCall)
    (h12 : expArgsPerm e1 e2) :
    TestRunner.isToolCallCorrect e1 a = TestRunner.isToolCallCorrect e2 a := by
  obtain ⟨hname, hperm⟩ := h12
  rw [Bool.eq_iff_iff, TR_isToolCallCorrect_iff, TR_isToolCallCorrect_iff, hname]
  constructor
  · rintro ⟨h1, h2⟩
    exact ⟨h1, fun kv hkv => h2 kv (hperm.mem_iff.mpr hkv)⟩
  · rintro ⟨h1, h2⟩
    exact ⟨h1, fun kv hkv => h2 kv (hperm.mem_iff.mp hkv)⟩

theorem TR_isPathSuccessful_argsPerm (exp : List ExpectedToolCall)
    (act1 act2 : List ActualToolCall) (h : List.Forall₂ argsPerm act1 act2) :
    TestRunner.isPathSuccessful exp act1 = TestRunner.isPathSuccessful exp act2 := by
  rw [Bool.eq_iff_iff, TR_isPathSuccessful_iff, TR_isPathSuccessful_iff,
    List.forall₂_iff_get, List.forall₂_iff_get]
  have hlen := h.length_eq
  constructor
  · rintro ⟨hl, hp⟩
    refine ⟨by omega, fun i h1 h2 => ?_⟩
    have h2a : i < act1.length := by omega
    rw [← TR_isToolCallCorrect_argsPerm _ _ _ (h.get h2a h2)]
    exact hp i h1 h2a
  · rintro ⟨hl, hp⟩
    refine ⟨by omega, fun i h1 h2 => ?_⟩
    have h2b : i < act2.length := by omega
    rw [TR_isToolCallCorrect_argsPerm _ _ _ (h.get h2 h2b)]
    exact hp i h1 h2b

theorem TR_isPathSuccessful_expPerm (exp1 exp2 : List ExpectedToolCall)
    (act : List ActualToolCall) (h : List.Forall₂ expArgsPerm exp1 exp2) :
    TestRunner.isPathSuccessful exp1 act = TestRunner.isPathSuccessful exp2 act := by
  rw [Bool.eq_iff_iff, TR_isPathSuccessful_iff, TR_isPathSuccessful_iff,
    List.forall₂_iff_get, List.forall₂_iff_get]
  have hlen := h.length_eq
  constructor
  · rintro ⟨hl, hp⟩
    refine ⟨by omega, fun i h1 h2 => ?_⟩
    have h1a : i < exp1.length := by omega
    rw [← TR_isToolCallCorrect_expPerm _ _ _ (h.get h1a h1)]
    exact hp i h1a h2
  · rintro ⟨hl, hp⟩
    refine ⟨by omega, fun i h1 h2 => ?_⟩
    have h1b : i < exp2.length := by omega
    rw [TR_isToolCallCorrect_expPerm _ _ _ (h.get h1 h1b)]
    exact hp i h1b h2

theorem TR_matchResult_variantPerm (actual : List ActualToolCall) :
    ∀ {vs1 vs2 : List ExpectedToolPath}, List.Forall₂ variantPerm vs1 vs2 →
      (match vs1.find? (fun v => TestRunner.isPathSuccessful v.tools actual) with
       | some variant => (true, variant.name)
       | none => (false, "")) =
      (match vs2.find? (fun v => TestRunner.isPathSuccessful v.tools actual) with
       | some variant => (true, variant.name)
       | none => (false, "")) := by
  intro vs1 vs2 h
  induction h with
  | nil => rfl
  | cons hab htail ih =>
      rename_i a b l1 l2
      have hp : TestRunner.isPathSuccessful a.tools actual =
          TestRunner.isPathSuccessful b.tools actual :=
        TR_isPathSuccessful_expPerm a.tools b.tools actual hab.2
      rw [List.find?_cons, List.find?_cons, hp]
      cases hpb : TestRunner.isPathSuccessful b.tools actual with
      | false => simpa using ih
      | true => simpa using hab.1

/-- C1: for a test case with at least one variant, the agent-loop
matcher reports success exactly when some variant matches the trace in
the spec's sense (same length, equal tool name at every position, and
every expected argument key present in the actual mapping with an
equal value under case-insensitive comparison); adding extra
actual-side argument keys never turns success into failure; and
permuting the argument mapping of any actual call (with its unique
keys) or of any expected call changes neither the verdict nor the
recorded matched path. -/
theorem c1_matcher_characterization (tc : TestCase)
    (actual actual2 : List ActualToolCall) (variants2 : List ExpectedToolPath)
    (hne : tc.expectedToolVariants ≠ []) :
    ((TestRunner.evaluateAgentResponse tc actual).1 = true ↔
      ∃ v ∈ tc.expectedToolVariants, variantMatchesSpec v actual) ∧
    (List.Forall₂ extendsArgs actual actual2 →
      (TestRunner.evaluateAgentResponse tc actual).1 = true →
      (TestRunner.evaluateAgentResponse tc actual2).1 = true) ∧
    (List.Forall₂ argsPerm actual actual2 →
      TestRunner.evaluateAgentResponse tc actual =
        TestRunner.evaluateAgentResponse tc actual2) ∧
    (List.Forall₂ variantPerm tc.expectedToolVariants variants2 →
      TestRunner.evaluateAgentResponse tc actual =
        TestRunner.evaluateAgentResponse
          { tc with expectedToolVariants := variants2 } actual) := by
  refine ⟨?_, ?_, ?_, ?_⟩
  · rw [TR_eval_fst_iff_exists tc actual hne]
    constructor
    · rintro ⟨v, hv, hp⟩
      exact ⟨v, hv, (TR_variant_iff_spec v actual).mp hp⟩
    · rintro ⟨v, hv, hp⟩
      exact ⟨v, hv, (TR_variant_iff_spec v actual).mpr hp⟩
  · intro hext hsucc
    rw [TR_eval_fst_iff_exists tc actual hne] at hsucc
    rw [TR_eval_fst_iff_exists tc actual2 hne]
    obtain ⟨v, hv, hp⟩ := hsucc
    exact ⟨v, hv, TR_isPathSuccessful_extends v.tools actual actual2 hext hp⟩
  · intro hperm
    rw [TR_eval_eq tc actual hne, TR_eval_eq tc actual2 hne]
    have hfe : (fun v : ExpectedToolPath => TestRunner.isPathSuccessful v.tools actual)
        = (fun v => TestRunner.isPathSuccessful v.tools actual2) :=
      funext fun v => TR_isPathSuccessful_argsPerm v.tools actual actual2 hperm
    rw [hfe]
  · intro hvperm
    have hne2 : variants2 ≠ [] := by
      intro h0
      rw [h0] at hvperm
      exact hne (List.forall₂_nil_right_iff.mp hvperm)
    rw [TR_eval_eq tc actual hne,
      TR_eval_eq { tc with expectedToolVariants := variants2 } actual hne2]
    exact TR_matchResult_variantPerm actual hvperm

/-- C1 witness: a one-variant test case matched by a trace whose
argument values differ in case, carry an extra key, and appear in a
different order in the mapping. -/
theorem c1_matcher_characterization_witness :
    ({ name := "t", prompt := "p",
       expectedToolVariants :=
         [{ name := "direct_add", description := "",
            tools := [{ name := "add_to_cart",
                        arguments := [("product_name", "iPhone 15"),
                                      ("quantity", "1")] }] }] } :
      TestCase).expectedToolVariants ≠ [] ∧
    TestRunner.evaluateAgentResponse
        { name := "t", prompt := "p",
          expectedToolVariants :=
            [{ name := "direct_add", description := "",
               tools := [{ name := "add_to_cart",
                           arguments := [("product_name", "iPhone 15"),
                                         ("quantity", "1")] }] }] }
        [{ name := "add_to_cart",
           arguments := [("quantity", "1"), ("product_name", "iphone 15")] }] =
      TestRunner.evaluateAgentResponse
        { name := "t", prompt := "p",
          expectedToolVariants :=
            [{ name := "direct_add", description := "",
               tools := [{ name := "add_to_cart",
                           arguments := [("product_name", "iPhone 15"),
                                         ("quantity", "1")] }] }] }
        [{ name := "add_to_cart",
           arguments := [("product_name", "iphone 15"), ("quantity", "1")] }] ∧
    TestRunner.evaluateAgentResponse
        { name := "t", prompt := "p",
          expectedToolVariants :=
            [{ name := "direct_add", description := "",
               tools := [{ name := "add_to_cart",
                           arguments := [("product_name", "iPhone 15"),
                                         ("quantity", "1")] }] }] }
        [{ name := "add_to_cart",
           arguments := [("product_name", "iphone 15"), ("quantity", "1")] }] =
      (true, "direct_add") := by
  refine ⟨by simp, ?_, by decide⟩
  exact (c1_matcher_characterization
      { name := "t", prompt := "p",
        expectedToolVariants :=
          [{ name := "direct_add", description := "",
             tools := [{ name := "add_to_cart",
                         arguments := [("product_name", "iPhone 15"),
                                       ("quantity", "1")] }] }] }
      [{ name := "add_to_cart",
         arguments := [("quantity", "1"), ("product_name", "iphone 15")] }]
      [{ name := "add_to_cart",
         arguments := [("product_name", "iphone 15"), ("quantity", "1")] }]
      [] (by simp)).2.2.1
    (List.Forall₂.cons
      ⟨rfl, List.Perm.swap ("product_name", "iphone 15") ("quantity", "1") [],
        by decide⟩
      List.Forall₂.nil)

end ModelTest
